import Mathlib

/-!
A shallow embedding of `op-proposer/proposer/driver.go` (the L2 output
submission driver) and proofs about its decision logic, output validation,
L1-head synchronization, lifecycle management and dispatch/metrics glue.

External collaborators (the L1 RPC client, the rollup client, the contract
callers and the transaction manager) are modelled as oracle environments:
each network call the driver makes is a lookup in such an environment, with
`Option`/`Except` capturing the call's possible failure.  Machine integers
(`uint64`, `*big.Int` block numbers) are modelled as `Nat`: the driver only
compares and copies them, never performs arithmetic that could overflow
(the single `+1` in `sendTransaction` cannot overflow for any feasible
block number).  Opaque fixed-width values (hashes, output roots, the
version tag `eth.Bytes32`, addresses) are modelled as `Nat` tokens.
Time (tickers, sleeps, timeouts) is modelled by indexing the oracle
observations: the i-th poll of an oracle reads index i; unbounded waiting
loops take a fuel argument, `none` meaning "still waiting after `fuel`
polls".
-/

namespace Proposer

/-- `eth.L1BlockRef` / `eth.L2BlockRef`: the driver reads only `Number` and
`Hash` (and logs `Time`); hash and time are opaque tokens. -/
structure BlockRef where
  Number : Nat
  Hash : Nat
  Time : Nat
deriving DecidableEq, Repr

/-- `eth.SyncStatus`, restricted to the four fields the driver reads:
`CurrentL1`, `HeadL1`, `SafeL2`, `FinalizedL2`. -/
structure SyncStatus where
  CurrentL1 : BlockRef
  HeadL1 : BlockRef
  SafeL2 : BlockRef
  FinalizedL2 : BlockRef
deriving DecidableEq, Repr

/-- `eth.OutputResponse`: version tag, output root commitment, the L2 block
the output describes, and the sync-status snapshot taken at fetch time. -/
structure OutputResponse where
  Version : Nat
  OutputRoot : Nat
  BlockRef : BlockRef
  Status : SyncStatus
deriving DecidableEq, Repr

/-- `supportedL2OutputVersion = eth.Bytes32{}` — the zero version tag. -/
def supportedL2OutputVersion : Nat := 0

/-- Errors surfaced by the driver's fetch path.  Each constructor stands for
one `fmt.Errorf`/`errors.New` site in the source; `fetchingOutput` is the
wrapping `fetching output: %w` in `FetchL2OOOutput`. -/
inductive Err where
  | rollupClient
  | syncStatus
  | outputAtBlock (block : Nat)
  | unsupportedVersion (v : Nat)
  | blockMismatch (onum requested : Nat)
  | l2ooNotSet
  | nextBlockNumber
  | fetchingOutput (e : Err)
deriving DecidableEq, Repr

/-- The fields of `ProposerConfig` the driver reads (interval durations are
not part of the value model; they only pace the oracle indices). -/
structure ProposerConfig where
  AllowNonFinalized : Bool
  L2OutputOracleAddr : Option Nat
  DisputeGameFactoryAddr : Option Nat
  DisputeGameType : Nat
deriving DecidableEq, Repr

/-- Oracle for `dial.RollupProvider` / `RollupClient`: whether obtaining the
client succeeds, the result of `SyncStatus`, and the result of
`OutputAtBlock` per requested block. -/
structure RollupEnv where
  rollupClientOk : Bool
  syncStatus : Option SyncStatus
  outputAtBlock : Nat → Option OutputResponse

/-- `FetchCurrentBlockNumber`: gets the rollup client, queries sync status,
and returns the safe head number when `AllowNonFinalized` is set, else the
finalized head number. -/
def FetchCurrentBlockNumber (cfg : ProposerConfig) (env : RollupEnv) : Except Err Nat :=
  if ¬ env.rollupClientOk then .error .rollupClient
  else match env.syncStatus with
  | none => .error .syncStatus
  | some status =>
    if cfg.AllowNonFinalized then .ok status.SafeL2.Number
    else .ok status.FinalizedL2.Number

/-- `FetchOutput`: gets the rollup client, queries the output at `block`,
then validates the version tag and that the returned block number matches
the requested one. -/
def FetchOutput (env : RollupEnv) (block : Nat) : Except Err OutputResponse :=
  if ¬ env.rollupClientOk then .error .rollupClient
  else match env.outputAtBlock block with
  | none => .error (.outputAtBlock block)
  | some output =>
    if output.Version ≠ supportedL2OutputVersion then
      .error (.unsupportedVersion output.Version)
    else if output.BlockRef.Number ≠ block then
      .error (.blockMismatch output.BlockRef.Number block)
    else .ok output

/-- Oracle for the `L2OOContract` caller: the result of `NextBlockNumber`. -/
structure L2OOEnv where
  nextBlockNumber : Option Nat
deriving Repr

/-- `FetchL2OOOutput`: with the L2OO handle set, query the registry for the
next checkpoint block, query the current (finalized/safe) L2 head, return
`(nil, false, nil)` when the head has not reached the checkpoint, otherwise
fetch the output at the checkpoint and gate the proposal on finality.  The
result models the Go triple `(*OutputResponse, bool, error)`:
`.error e` is `(nil, false, e)` and `.ok (o, b)` is `(o, b, nil)`. -/
def FetchL2OOOutput (cfg : ProposerConfig) (l2ooContract : Option L2OOEnv)
    (env : RollupEnv) : Except Err (Option OutputResponse × Bool) :=
  match l2ooContract with
  | none => .error .l2ooNotSet
  | some c =>
    match c.nextBlockNumber with
    | none => .error .nextBlockNumber
    | some nextCheckpointBlock =>
      match FetchCurrentBlockNumber cfg env with
      | .error e => .error e
      | .ok currentBlockNumber =>
        if currentBlockNumber < nextCheckpointBlock then .ok (none, false)
        else
          match FetchOutput env nextCheckpointBlock with
          | .error e => .error (.fetchingOutput e)
          | .ok output =>
            if output.BlockRef.Number > output.Status.FinalizedL2.Number ∧
                (¬ cfg.AllowNonFinalized ∨
                  output.BlockRef.Number > output.Status.SafeL2.Number) then
              .ok (some output, false)
            else
              .ok (some output, true)

/-- `FetchDGFOutput`: fetch the current boundary block number and the output
at exactly that block. -/
def FetchDGFOutput (cfg : ProposerConfig) (env : RollupEnv) :
    Except Err OutputResponse :=
  match FetchCurrentBlockNumber cfg env with
  | .error e => .error e
  | .ok blockNum => FetchOutput env blockNum

/-- Outcome of `waitForL1Head`: `success i` means the loop returned `nil`
after the observation at poll index `i` exceeded the threshold; `rpcError`
is a failing `Txmgr.BlockNumber` call; `shutdown` is the `<-l.done` branch
returning the `L2OutputSubmitter is done()` error. -/
inductive WaitOutcome where
  | success (idx : Nat)
  | rpcError
  | shutdown
deriving DecidableEq, Repr

/-- Loop body of `waitForL1Head`.  `heads i` is the i-th observation of
`Txmgr.BlockNumber` (`none` = RPC error); `doneAt i` is whether the `done`
channel is closed when the loop selects between the ticker and `done`
after observation `i`.  `fuel` bounds the number of observations modelled;
`none` means the loop is still waiting after them. -/
def waitLoop (heads : Nat → Option Nat) (doneAt : Nat → Bool) (blockNum : Nat) :
    Nat → Nat → Option WaitOutcome
  | _, 0 => none
  | i, fuel + 1 =>
    match heads i with
    | none => some .rpcError
    | some l1head =>
      if l1head ≤ blockNum then
        if doneAt i then some .shutdown
        else waitLoop heads doneAt blockNum (i + 1) fuel
      else some (.success i)

/-- `waitForL1Head(ctx, blockNum)`: poll `Txmgr.BlockNumber` from index 0
until the observed head exceeds `blockNum` (`for l1head <= blockNum`). -/
def waitForL1Head (heads : Nat → Option Nat) (doneAt : Nat → Bool)
    (blockNum : Nat) (fuel : Nat) : Option WaitOutcome :=
  waitLoop heads doneAt blockNum 0 fuel

/-- `types.Receipt`, restricted to the fields the driver reads:
`statusFailed` is `receipt.Status == types.ReceiptStatusFailed`. -/
structure Receipt where
  statusFailed : Bool
  txHash : Nat
deriving DecidableEq, Repr

/-- Oracle for `txmgr.TxManager`: `heads` feeds `BlockNumber` polls and
`sendResult` is the outcome of `Send` (`none` = error). -/
structure TxmgrEnv where
  heads : Nat → Option Nat
  sendResult : Option Receipt

/-- Oracle for the `DisputeGameFactoryCaller` handle: the result of
`InitBonds` per game type (`none` = failing read). -/
structure DGFEnv where
  initBonds : Nat → Option Nat

/-- The fields of `L2OutputSubmitter` the dispatch/fetch paths read: the
config and the two mode contract handles (exactly one set on any state the
constructor produces). -/
structure SubmitterState where
  Cfg : ProposerConfig
  l2ooContract : Option L2OOEnv
  dgfContract : Option DGFEnv

/-- Outcome of `sendTransaction`: `published reverted` is the `nil`-error
return (reaching the receipt-status logging), with `reverted` recording
whether the confirmed receipt had failed status; `nilDGFPanic` models the
method call `l.dgfContract.InitBonds` on a nil handle; the remaining
constructors are the early `return err` sites. -/
inductive TxOutcome where
  | published (reverted : Bool)
  | waitRpcError
  | waitShutdown
  | nilDGFPanic
  | bondError
  | sendError
deriving DecidableEq, Repr

/-- `sendTransaction`: wait until the L1 head exceeds
`output.Status.HeadL1.Number + 1`, then branch on
`l.Cfg.DisputeGameFactoryAddr != nil`: the DGF branch reads the bond from
`l.dgfContract` and sends a `create` transaction carrying the bond; the
L2OO branch sends a `proposeL2Output` transaction.  The ABI `Pack` calls
are pure encodings of already-fetched data and are modelled as always
succeeding.  `none` means the head wait is still blocking after `fuel`
polls. -/
def sendTransaction (l : SubmitterState) (tx : TxmgrEnv) (doneAt : Nat → Bool)
    (fuel : Nat) (output : OutputResponse) : Option TxOutcome :=
  match waitForL1Head tx.heads doneAt (output.Status.HeadL1.Number + 1) fuel with
  | none => none
  | some .rpcError => some .waitRpcError
  | some .shutdown => some .waitShutdown
  | some (.success _) =>
    if l.Cfg.DisputeGameFactoryAddr.isSome then
      match l.dgfContract with
      | none => some .nilDGFPanic
      | some dgf =>
        match dgf.initBonds l.Cfg.DisputeGameType with
        | none => some .bondError
        | some _bond =>
          match tx.sendResult with
          | none => some .sendError
          | some receipt => some (.published receipt.statusFailed)
    else
      match tx.sendResult with
      | none => some .sendError
      | some receipt => some (.published receipt.statusFailed)

/-- Whether `proposeOutput` reaches `l.Metr.RecordL2BlocksProposed`: it does
exactly when `sendTransaction` returned a `nil` error (a published
transaction, reverted or not). -/
def metricRecorded : Option TxOutcome → Bool
  | some (.published _) => true
  | _ => false

/-- `proposeOutput`: call `sendTransaction`; on error log and return without
recording, otherwise record the proposed block in the metrics sink.  The
returned Bool is whether the metric was recorded. -/
def proposeOutput (l : SubmitterState) (tx : TxmgrEnv) (doneAt : Nat → Bool)
    (fuel : Nat) (output : OutputResponse) : Bool :=
  metricRecorded (sendTransaction l tx doneAt fuel output)

/-- Construction-time failures of `NewL2OutputSubmitter`: `neitherAddr` is
the `neither the L2OutputOracle nor DisputeGameFactory addresses were
provided` error; the rest are the caller-creation, `Version()` and
`GetAbi()` failure sites of the two mode constructors. -/
inductive ConstructErr where
  | neitherAddr
  | l2ooCaller
  | l2ooVersion
  | l2ooABI
  | dgfCaller
  | dgfVersion
  | dgfABI
deriving DecidableEq, Repr

/-- Oracle for construction: outcomes of `NewL2OutputOracleCaller` /
`NewDisputeGameFactoryCaller`, the diagnostic `Version()` calls (the
version string itself is an opaque token), `GetAbi()`, and the contract
handles produced on success. -/
structure ConstructEnv where
  l2ooCallerOk : Bool
  l2ooVersion : Option Nat
  l2ooABIOk : Bool
  dgfCallerOk : Bool
  dgfVersion : Option Nat
  dgfABIOk : Bool
  l2ooHandle : L2OOEnv
  dgfHandle : DGFEnv

/-- `newL2OOSubmitter`: create the L2OO caller, query its version (used for
logging only, but a failing call is fatal), parse the ABI, and return a
state whose `dgfContract` is nil. -/
def newL2OOSubmitter (cfg : ProposerConfig) (env : ConstructEnv) :
    Except ConstructErr SubmitterState :=
  if ¬ env.l2ooCallerOk then .error .l2ooCaller
  else match env.l2ooVersion with
  | none => .error .l2ooVersion
  | some _ =>
    if ¬ env.l2ooABIOk then .error .l2ooABI
    else .ok { Cfg := cfg, l2ooContract := some env.l2ooHandle, dgfContract := none }

/-- `newDGFSubmitter`: create the DGF caller, query its version, parse the
ABI, and return a state whose `l2ooContract` is nil. -/
def newDGFSubmitter (cfg : ProposerConfig) (env : ConstructEnv) :
    Except ConstructErr SubmitterState :=
  if ¬ env.dgfCallerOk then .error .dgfCaller
  else match env.dgfVersion with
  | none => .error .dgfVersion
  | some _ =>
    if ¬ env.dgfABIOk then .error .dgfABI
    else .ok { Cfg := cfg, l2ooContract := none, dgfContract := some env.dgfHandle }

/-- `NewL2OutputSubmitter`: select the mode from the configured addresses —
the L2OO address takes precedence, the DGF address is tried second, and
with neither set construction fails with the configuration error. -/
def NewL2OutputSubmitter (cfg : ProposerConfig) (env : ConstructEnv) :
    Except ConstructErr SubmitterState :=
  if cfg.L2OutputOracleAddr.isSome then newL2OOSubmitter cfg env
  else if cfg.DisputeGameFactoryAddr.isSome then newDGFSubmitter cfg env
  else .error .neitherAddr

/-- Lifecycle state guarded by the driver's mutex, plus the observable
effects of start/stop: `workerCount` is the number of live worker
goroutines (the `wg` counter), `cancelled` whether `l.cancel` has been
called, `doneClosed` whether the `done` channel is closed. -/
structure RunState where
  running : Bool
  workerCount : Nat
  cancelled : Bool
  doneClosed : Bool
deriving DecidableEq, Repr

/-- The state a freshly constructed submitter starts in. -/
def initRunState : RunState :=
  { running := false, workerCount := 0, cancelled := false, doneClosed := false }

/-- The two lifecycle errors: `proposer is already running` and
`ErrProposerNotRunning`. -/
inductive LifecycleErr where
  | alreadyRunning
  | notRunning
deriving DecidableEq, Repr

/-- `StartL2OutputSubmitting`: under the mutex, fail if already running,
otherwise set `running`, add one worker to the wait group and spawn it. -/
def StartL2OutputSubmitting (s : RunState) : Except LifecycleErr RunState :=
  if s.running then .error .alreadyRunning
  else .ok { s with running := true, workerCount := s.workerCount + 1 }

/-- `StopL2OutputSubmitting`: under the mutex, fail if not running,
otherwise clear `running`, cancel the context, close `done` and block in
`wg.Wait()` until the worker has exited — the returned state is the state
observed when `Stop` returns, hence `workerCount = 0`. -/
def StopL2OutputSubmitting (s : RunState) : Except LifecycleErr RunState :=
  if ¬ s.running then .error .notRunning
  else .ok { running := false, workerCount := 0, cancelled := true, doneClosed := true }

/-- `StopL2OutputSubmittingIfRunning`: delegate to `Stop` and map the
`ErrProposerNotRunning` outcome to success. -/
def StopL2OutputSubmittingIfRunning (s : RunState) : Except LifecycleErr RunState :=
  match StopL2OutputSubmitting s with
  | .error .notRunning => .ok s
  | r => r

/-- Result of one `loopDGF` tick body: `shutdown` is the `<-l.done` exit,
`proposed output sleeps` means the retry loop fetched `output` after
`sleeps` failed attempts (each followed by one `OutputRetryInterval`
sleep) and handed it to `proposeOutput`. -/
inductive TickOutcome where
  | shutdown
  | proposed (output : OutputResponse) (sleeps : Nat)
deriving DecidableEq, Repr

/-- Retry loop of one `loopDGF` tick.  `fetch i` is the outcome of the i-th
`FetchDGFOutput` attempt during this tick and `doneAt i` whether the `done`
channel is observed closed at the shutdown check preceding attempt `i`.
`fuel` bounds the attempts modelled; `none` means the loop is still
retrying after them. -/
def loopDGFTickAux (fetch : Nat → Except Err OutputResponse) (doneAt : Nat → Bool) :
    Nat → Nat → Nat → Option TickOutcome
  | _, _, 0 => none
  | i, sleeps, fuel + 1 =>
    if doneAt i then some .shutdown
    else
      match fetch i with
      | .error _ => loopDGFTickAux fetch doneAt (i + 1) (sleeps + 1) fuel
      | .ok output => some (.proposed output sleeps)

/-- One tick of `loopDGF`: `for output == nil || err != nil`, re-checking
the shutdown signal before every attempt, sleeping the retry interval
after every failed fetch, and proposing the first fetched output. -/
def loopDGFTick (fetch : Nat → Except Err OutputResponse) (doneAt : Nat → Bool)
    (fuel : Nat) : Option TickOutcome :=
  loopDGFTickAux fetch doneAt 0 0 fuel

/-- Classifier used to state that a fetch error is (not) the
block-mismatch error. -/
def Err.isBlockMismatch : Err → Bool
  | .blockMismatch _ _ => true
  | _ => false

/-! Concrete sample values used by witnesses and counterexamples. -/

/-- A block reference with a given number and zero hash/time. -/
def blk (n : Nat) : BlockRef := { Number := n, Hash := 0, Time := 0 }

/-- The sync-status snapshot of the spec's worked example:
`finalizedL2 = 100`, `safeL2 = 105`. -/
def sampleStatus : SyncStatus :=
  { CurrentL1 := blk 40, HeadL1 := blk 50, SafeL2 := blk 105, FinalizedL2 := blk 100 }

/-- A valid output at L2 block 100 carrying `sampleStatus`. -/
def sampleOutput : OutputResponse :=
  { Version := 0, OutputRoot := 7, BlockRef := blk 100, Status := sampleStatus }

/-- A registry-mode configuration with finalized-only proposals. -/
def sampleCfg : ProposerConfig :=
  { AllowNonFinalized := false, L2OutputOracleAddr := some 1,
    DisputeGameFactoryAddr := none, DisputeGameType := 0 }

/-- A rollup oracle answering `sampleStatus` and serving `sampleOutput`
at block 100. -/
def sampleEnv : RollupEnv :=
  { rollupClientOk := true, syncStatus := some sampleStatus,
    outputAtBlock := fun b => if b = 100 then some sampleOutput else none }

/-- An output whose version (1) and block number (7) both violate the
`FetchOutput` checks for a request of block 5. -/
def badOutput : OutputResponse :=
  { Version := 1, OutputRoot := 0, BlockRef := blk 7, Status := sampleStatus }

/-- A rollup oracle serving `badOutput` at block 5. -/
def badEnv : RollupEnv :=
  { rollupClientOk := true, syncStatus := some sampleStatus,
    outputAtBlock := fun b => if b = 5 then some badOutput else none }

/-- An output whose `HeadL1` number is 0, for exercising the L1-head wait. -/
def headZeroOutput : OutputResponse :=
  { Version := 0, OutputRoot := 7, BlockRef := blk 100,
    Status := { CurrentL1 := blk 40, HeadL1 := blk 0, SafeL2 := blk 105,
                FinalizedL2 := blk 100 } }

/-- A transaction-manager oracle whose every `BlockNumber` poll observes
head 1 and whose `Send` confirms a non-reverted receipt. -/
def headOneTx : TxmgrEnv :=
  { heads := fun _ => some 1, sendResult := some { statusFailed := false, txHash := 3 } }

/-- A transaction-manager oracle observing head 9 at once, confirming a
reverted receipt. -/
def revertedTx : TxmgrEnv :=
  { heads := fun _ => some 9, sendResult := some { statusFailed := true, txHash := 4 } }

/-- A registry-mode submitter state as produced by construction. -/
def sampleState : SubmitterState :=
  { Cfg := sampleCfg, l2ooContract := some { nextBlockNumber := some 100 },
    dgfContract := none }

/-- A configuration with BOTH mode addresses set. -/
def bothCfg : ProposerConfig :=
  { AllowNonFinalized := false, L2OutputOracleAddr := some 1,
    DisputeGameFactoryAddr := some 2, DisputeGameType := 0 }

/-- A construction oracle on which every collaborator call succeeds. -/
def okConstructEnv : ConstructEnv :=
  { l2ooCallerOk := true, l2ooVersion := some 0, l2ooABIOk := true,
    dgfCallerOk := true, dgfVersion := some 0, dgfABIOk := true,
    l2ooHandle := { nextBlockNumber := some 100 },
    dgfHandle := { initBonds := fun _ => some 5 } }

/-- A configuration with neither mode address set. -/
def emptyCfg : ProposerConfig :=
  { AllowNonFinalized := false, L2OutputOracleAddr := none,
    DisputeGameFactoryAddr := none, DisputeGameType := 0 }

/-- The submitter state construction produces from `bothCfg` and
`okConstructEnv`: registry mode, with the factory handle left nil. -/
def bothState : SubmitterState :=
  { Cfg := bothCfg, l2ooContract := some { nextBlockNumber := some 100 },
    dgfContract := none }

/-- A fetch-attempt trace that fails twice and then succeeds forever. -/
def fetchTwoFails : Nat → Except Err OutputResponse :=
  fun i => if i < 2 then .error .rollupClient else .ok sampleOutput

/-- C8: for every sync status returned by the rollup client,
`FetchCurrentBlockNumber` returns the safe-head L2 block number when
`AllowNonFinalized` is set, and the finalized-head L2 block number
otherwise. -/
theorem FetchCurrentBlockNumber_spec (cfg : ProposerConfig) (env : RollupEnv)
    (st : SyncStatus) (hok : env.rollupClientOk = true)
    (hst : env.syncStatus = some st) :
    FetchCurrentBlockNumber cfg env =
      .ok (if cfg.AllowNonFinalized then st.SafeL2.Number else st.FinalizedL2.Number) := by
  unfold FetchCurrentBlockNumber
  rw [hok, hst]
  by_cases h : cfg.AllowNonFinalized <;> simp [h]

/-- Witness for C8 at `sampleEnv`: finalized-only config yields the
finalized head 100. -/
theorem FetchCurrentBlockNumber_spec_witness :
    FetchCurrentBlockNumber sampleCfg sampleEnv = .ok 100 := by
  have h := FetchCurrentBlockNumber_spec sampleCfg sampleEnv sampleStatus rfl rfl
  simpa [sampleCfg, sampleStatus, blk] using h

/-- C9: with neither the registry address nor the factory address set,
construction fails with the configuration error — for EVERY collaborator
oracle `env`, so the result does not depend on any contract connection,
version query or ABI parse (none is performed). -/
theorem NewL2OutputSubmitter_neitherAddr (cfg : ProposerConfig) (env : ConstructEnv)
    (h1 : cfg.L2OutputOracleAddr = none) (h2 : cfg.DisputeGameFactoryAddr = none) :
    NewL2OutputSubmitter cfg env = .error .neitherAddr := by
  simp [NewL2OutputSubmitter, h1, h2]

/-- Witness for C9 at `emptyCfg` and the all-succeeding oracle. -/
theorem NewL2OutputSubmitter_neitherAddr_witness :
    NewL2OutputSubmitter emptyCfg okConstructEnv = .error .neitherAddr :=
  NewL2OutputSubmitter_neitherAddr emptyCfg okConstructEnv rfl rfl

/-- C5: in registry mode, when the current L2 boundary block (the value
`FetchCurrentBlockNumber` returns) is strictly below the registry's next
expected block, `FetchL2OOOutput` returns `(nil, false, nil)`; the result
is stated for every output oracle `f`, so no output fetch influences
it (none is performed). -/
theorem FetchL2OOOutput_tooEarly (cfg : ProposerConfig) (c : L2OOEnv)
    (env : RollupEnv) (nb cur : Nat)
    (hnext : c.nextBlockNumber = some nb)
    (hcur : FetchCurrentBlockNumber cfg env = .ok cur)
    (hlt : cur < nb) :
    ∀ f : Nat → Option OutputResponse,
      FetchL2OOOutput cfg (some c) { env with outputAtBlock := f } =
        .ok (none, false) := by
  intro f
  have hcur' : FetchCurrentBlockNumber cfg { env with outputAtBlock := f } = .ok cur := hcur
  simp [FetchL2OOOutput, hnext, hcur', hlt]

/-- Witness for C5: boundary 100 strictly below next expected block 101. -/
theorem FetchL2OOOutput_tooEarly_witness :
    FetchL2OOOutput sampleCfg (some { nextBlockNumber := some 101 }) sampleEnv =
      .ok (none, false) := by
  have h := FetchL2OOOutput_tooEarly sampleCfg { nextBlockNumber := some 101 }
    sampleEnv 101 100 rfl rfl (by decide) sampleEnv.outputAtBlock
  simpa using h

/-- C1: in registry mode, once the next checkpoint block is known, the
boundary has reached it and the output fetch succeeded, `FetchL2OOOutput`
returns the output with `shouldPropose = true` exactly when the output's
block is within the finalized chain, or non-finalized proposals are
allowed and it is within the safe chain; otherwise it returns the output
with `shouldPropose = false` and no error. -/
theorem FetchL2OOOutput_gate (cfg : ProposerConfig) (c : L2OOEnv) (env : RollupEnv)
    (nb cur : Nat) (output : OutputResponse)
    (hnext : c.nextBlockNumber = some nb)
    (hcur : FetchCurrentBlockNumber cfg env = .ok cur)
    (hge : nb ≤ cur)
    (hout : FetchOutput env nb = .ok output) :
    ∃ b : Bool, FetchL2OOOutput cfg (some c) env = .ok (some output, b) ∧
      (b = true ↔
        (output.BlockRef.Number ≤ output.Status.FinalizedL2.Number ∨
          (cfg.AllowNonFinalized = true ∧
            output.BlockRef.Number ≤ output.Status.SafeL2.Number))) := by
  have hnlt : ¬ cur < nb := Nat.not_lt.mpr hge
  have hmain : FetchL2OOOutput cfg (some c) env =
      (if output.BlockRef.Number > output.Status.FinalizedL2.Number ∧
          (¬ cfg.AllowNonFinalized ∨ output.BlockRef.Number > output.Status.SafeL2.Number)
        then .ok (some output, false) else .ok (some output, true)) := by
    simp [FetchL2OOOutput, hnext, hcur, hnlt, hout]
  rw [hmain]
  split
  case isTrue hG =>
    rcases hG with ⟨h1, h2⟩
    refine ⟨false, rfl, iff_of_false (by simp) ?_⟩
    rintro (hle | ⟨hA, hs⟩)
    · omega
    · rcases h2 with h | h
      · exact h (by simp [hA])
      · omega
  case isFalse hG =>
    refine ⟨true, rfl, iff_of_true rfl ?_⟩
    by_cases hf : output.BlockRef.Number ≤ output.Status.FinalizedL2.Number
    · exact Or.inl hf
    · have h1 : output.BlockRef.Number > output.Status.FinalizedL2.Number := by omega
      have h2 : ¬ (¬ (cfg.AllowNonFinalized : Prop) ∨
          output.BlockRef.Number > output.Status.SafeL2.Number) :=
        fun hc => hG ⟨h1, hc⟩
      have hA : cfg.AllowNonFinalized = true := by
        by_contra hna
        exact h2 (Or.inl (by simp [Bool.not_eq_true] at hna ⊢; exact hna))
      have hs : output.BlockRef.Number ≤ output.Status.SafeL2.Number := by
        by_contra hns
        exact h2 (Or.inr (by omega))
      exact Or.inr ⟨hA, hs⟩

/-- Witness for C1: the spec's worked example — finalized head 100, safe
head 105, output block 100, finalized-only config — proposes. -/
theorem FetchL2OOOutput_gate_witness :
    FetchL2OOOutput sampleCfg (some { nextBlockNumber := some 100 }) sampleEnv =
      .ok (some sampleOutput, true) := by
  obtain ⟨b, hb, hiff⟩ := FetchL2OOOutput_gate sampleCfg { nextBlockNumber := some 100 }
    sampleEnv 100 100 sampleOutput rfl rfl (by decide) rfl
  have hbt : b = true := hiff.mpr (Or.inl (by decide))
  rw [hbt] at hb
  exact hb

/-- C4 counterexample: for a request of block 5, the oracle returns
`badOutput` whose block number 7 mismatches the request, yet — because its
version also mismatches and the version check runs first — `FetchOutput`
fails with the unsupported-version error, not the block-mismatch error. -/
theorem FetchOutput_bothMismatch_cex :
    badEnv.outputAtBlock 5 = some badOutput ∧
    badOutput.BlockRef.Number ≠ 5 ∧
    FetchOutput badEnv 5 = .error (.unsupportedVersion 1) ∧
    (Err.unsupportedVersion 1).isBlockMismatch = false := by
  refine ⟨rfl, by decide, rfl, rfl⟩

/-- C4 (amended): `FetchOutput` returns an output only if it is the one the
oracle served, its version equals the supported constant and its block
number equals the requested block; a version mismatch fails with the
unsupported-version error; a block-number mismatch on a version-matching
output fails with the block-mismatch error. -/
theorem FetchOutput_validation (env : RollupEnv) (block : Nat)
    (hok : env.rollupClientOk = true) :
    (∀ output, FetchOutput env block = .ok output →
      env.outputAtBlock block = some output ∧
      output.Version = supportedL2OutputVersion ∧
      output.BlockRef.Number = block) ∧
    (∀ output, env.outputAtBlock block = some output →
      output.Version ≠ supportedL2OutputVersion →
      FetchOutput env block = .error (.unsupportedVersion output.Version)) ∧
    (∀ output, env.outputAtBlock block = some output →
      output.Version = supportedL2OutputVersion →
      output.BlockRef.Number ≠ block →
      FetchOutput env block = .error (.blockMismatch output.BlockRef.Number block)) := by
  refine ⟨?_, ?_, ?_⟩
  · intro output hout
    cases hser : env.outputAtBlock block with
    | none => simp [FetchOutput, hok, hser] at hout
    | some served =>
      by_cases hv : served.Version = supportedL2OutputVersion
      · by_cases hn : served.BlockRef.Number = block
        · have heq : served = output := by
            simpa [FetchOutput, hok, hser, hv, hn] using hout
          subst heq
          exact ⟨rfl, hv, hn⟩
        · simp [FetchOutput, hok, hser, hv, hn] at hout
      · simp [FetchOutput, hok, hser, hv] at hout
  · intro output hser hv
    simp [FetchOutput, hok, hser, hv]
  · intro output hser hv hn
    simp [FetchOutput, hok, hser, hv, hn]

/-- Witness for C4's amended theorem: `sampleEnv` serves `sampleOutput`
at block 100 and `FetchOutput` accepts it. -/
theorem FetchOutput_validation_witness :
    sampleEnv.outputAtBlock 100 = some sampleOutput ∧
    sampleOutput.Version = supportedL2OutputVersion ∧
    sampleOutput.BlockRef.Number = 100 :=
  (FetchOutput_validation sampleEnv 100 rfl).1 sampleOutput rfl

/-- C6: `Start` fails with the already-running error exactly when called
while running, and otherwise marks the driver running and spawns one more
worker (exactly one, since a non-running state has none live); `Stop`
fails with the not-running error exactly when called while not running,
and otherwise cancels, closes `done` and — having waited for the worker —
returns with no worker left; `StopIfRunning` maps the not-running failure
to success and otherwise behaves as `Stop`. -/
theorem lifecycle_spec (s : RunState) :
    (StartL2OutputSubmitting s = .error .alreadyRunning ↔ s.running = true) ∧
    (s.running = false →
      StartL2OutputSubmitting s =
        .ok { s with running := true, workerCount := s.workerCount + 1 }) ∧
    (StopL2OutputSubmitting s = .error .notRunning ↔ s.running = false) ∧
    (s.running = true →
      StopL2OutputSubmitting s =
        .ok { running := false, workerCount := 0, cancelled := true, doneClosed := true }) ∧
    (s.running = false → StopL2OutputSubmittingIfRunning s = .ok s) ∧
    (s.running = true →
      StopL2OutputSubmittingIfRunning s = StopL2OutputSubmitting s) := by
  cases hr : s.running
  · refine ⟨by simp [StartL2OutputSubmitting, hr], ?_, by simp [StopL2OutputSubmitting, hr], ?_, ?_, ?_⟩
    · intro _; simp [StartL2OutputSubmitting, hr]
    · intro h; cases h
    · intro _; simp [StopL2OutputSubmittingIfRunning, StopL2OutputSubmitting, hr]
    · intro h; cases h
  · refine ⟨by simp [StartL2OutputSubmitting, hr], ?_, by simp [StopL2OutputSubmitting, hr], ?_, ?_, ?_⟩
    · intro h; cases h
    · intro _; simp [StopL2OutputSubmitting, hr]
    · intro h; cases h
    · intro _; simp [StopL2OutputSubmittingIfRunning, StopL2OutputSubmitting, hr]

/-- Witness for C6: starting from the freshly constructed state spawns the
single worker; a second start on the resulting state fails as already
running; stopping it succeeds with the worker gone; stop-if-running on the
fresh (not running) state succeeds. -/
theorem lifecycle_spec_witness :
    StartL2OutputSubmitting initRunState =
      .ok { running := true, workerCount := 1, cancelled := false, doneClosed := false } ∧
    StartL2OutputSubmitting
      { running := true, workerCount := 1, cancelled := false, doneClosed := false } =
      .error .alreadyRunning ∧
    StopL2OutputSubmitting
      { running := true, workerCount := 1, cancelled := false, doneClosed := false } =
      .ok { running := false, workerCount := 0, cancelled := true, doneClosed := true } ∧
    StopL2OutputSubmittingIfRunning initRunState = .ok initRunState := by
  refine ⟨(lifecycle_spec initRunState).2.1 rfl, ?_, ?_, ?_⟩
  · exact (lifecycle_spec _).1.mpr rfl
  · exact (lifecycle_spec _).2.2.2.1 rfl
  · exact (lifecycle_spec initRunState).2.2.2.2.1 rfl

/-- Any successful exit of the wait loop observed a head strictly above the
threshold. -/
theorem waitLoop_success_gt (heads : Nat → Option Nat) (doneAt : Nat → Bool)
    (blockNum : Nat) :
    ∀ fuel i k, waitLoop heads doneAt blockNum i fuel = some (.success k) →
      ∃ h, heads k = some h ∧ blockNum < h := by
  intro fuel
  induction fuel with
  | zero => intro i k h; cases h
  | succ n ih =>
    intro i k h
    unfold waitLoop at h
    split at h
    · simp at h
    · rename_i l1head hh
      split at h
      · split at h
        · simp at h
        · exact ih _ _ h
      · rename_i hgt
        simp only [Option.some.injEq, WaitOutcome.success.injEq] at h
        subst h
        exact ⟨l1head, hh, Nat.lt_of_not_le hgt⟩

/-- If the very first observation already exceeds the threshold, the wait
returns at once. -/
theorem waitLoop_immediate (heads : Nat → Option Nat) (doneAt : Nat → Bool)
    (blockNum i fuel h : Nat) (hh : heads i = some h) (hlt : blockNum < h)
    (hf : 0 < fuel) :
    waitLoop heads doneAt blockNum i fuel = some (.success i) := by
  cases fuel with
  | zero => cases hf
  | succ n =>
    have hnle : ¬ h ≤ blockNum := Nat.not_le.mpr hlt
    unfold waitLoop
    rw [hh]
    simp [hnle]

/-- Once the head wait has succeeded, `sendTransaction` always reaches a
definite outcome (it never reports "still waiting"). -/
theorem sendTransaction_after_success (l : SubmitterState) (tx : TxmgrEnv)
    (doneAt : Nat → Bool) (fuel : Nat) (output : OutputResponse) (k : Nat)
    (hw : waitForL1Head tx.heads doneAt (output.Status.HeadL1.Number + 1) fuel =
      some (.success k)) :
    sendTransaction l tx doneAt fuel output ≠ none := by
  unfold sendTransaction
  rw [hw]
  by_cases hd : l.Cfg.DisputeGameFactoryAddr.isSome
  · simp only [hd, if_true]
    cases l.dgfContract with
    | none => simp
    | some dgf =>
      cases hb : dgf.initBonds l.Cfg.DisputeGameType <;>
        cases hs : tx.sendResult <;> simp [hb, hs]
  · simp only [hd, Bool.false_eq_true, if_false]
    cases hs : tx.sendResult <;> simp [hs]

/-- C2 counterexample: `headZeroOutput` has `headL1.number = H = 0` and
every poll of `headOneTx` observes head 1, which strictly exceeds `H`;
the claim says dispatch proceeds as soon as the head exceeds `H`, yet
`sendTransaction` — which waits for the head to exceed `H + 1` — is still
blocked after 5 polls. -/
theorem sendTransaction_headExceedsH_cex :
    headOneTx.heads 0 = some 1 ∧ headZeroOutput.Status.HeadL1.Number = 0 ∧
    sendTransaction sampleState headOneTx (fun _ => false) 5 headZeroOutput = none :=
  ⟨rfl, rfl, rfl⟩

/-- C2 (amended): the pre-dispatch wait `sendTransaction` performs — with
threshold `output.status.headL1.number + 1` — returns successfully only
once the observed L1 head is strictly greater than `H + 1` (so never while
it equals `H` or `H + 1`); dispatch proceeds as soon as an observation
exceeds `H + 1`; and `sendTransaction` is blocked exactly while this wait
is blocked. -/
theorem sendTransaction_l1HeadGate (l : SubmitterState) (tx : TxmgrEnv)
    (doneAt : Nat → Bool) (output : OutputResponse) :
    (∀ fuel k, waitForL1Head tx.heads doneAt (output.Status.HeadL1.Number + 1) fuel =
        some (.success k) →
      ∃ h, tx.heads k = some h ∧ output.Status.HeadL1.Number + 1 < h) ∧
    (∀ fuel h, 0 < fuel → tx.heads 0 = some h →
      output.Status.HeadL1.Number + 1 < h →
      waitForL1Head tx.heads doneAt (output.Status.HeadL1.Number + 1) fuel =
        some (.success 0)) ∧
    (∀ fuel, sendTransaction l tx doneAt fuel output = none ↔
      waitForL1Head tx.heads doneAt (output.Status.HeadL1.Number + 1) fuel = none) := by
  refine ⟨fun fuel k h => waitLoop_success_gt tx.heads doneAt _ fuel 0 k h,
    fun fuel h hf hh hlt => waitLoop_immediate tx.heads doneAt _ 0 fuel h hh hlt hf,
    fun fuel => ?_⟩
  constructor
  · intro hnone
    cases hw : waitForL1Head tx.heads doneAt (output.Status.HeadL1.Number + 1) fuel with
    | none => rfl
    | some o =>
      cases o with
      | success k =>
        exact absurd hnone (sendTransaction_after_success l tx doneAt fuel output k hw)
      | rpcError => simp [sendTransaction, hw] at hnone
      | shutdown => simp [sendTransaction, hw] at hnone
  · intro hw
    simp [sendTransaction, hw]

/-- Witness for C2's amended theorem: with head 9 observed at once against
threshold `0 + 1`, the wait succeeds immediately. -/
theorem sendTransaction_l1HeadGate_witness :
    waitForL1Head revertedTx.heads (fun _ => false)
      (headZeroOutput.Status.HeadL1.Number + 1) 4 = some (.success 0) :=
  (sendTransaction_l1HeadGate sampleState revertedTx (fun _ => false)
    headZeroOutput).2.1 4 9 (by decide) rfl (by decide)

/-- C3: with BOTH the registry and the factory address configured,
construction selects registry mode — any state it returns has
`dgfContract = nil` while keeping the factory address in its config — and
`sendTransaction`, branching on the factory address being set, then takes
the dispute-game branch and invokes the bond lookup on the nil factory
handle as soon as the head wait completes. -/
theorem NewL2OutputSubmitter_bothAddrs_dgf_nil (cfg : ProposerConfig)
    (env : ConstructEnv) (s : SubmitterState) (tx : TxmgrEnv)
    (doneAt : Nat → Bool) (fuel k : Nat) (output : OutputResponse)
    (h1 : cfg.L2OutputOracleAddr.isSome = true)
    (h2 : cfg.DisputeGameFactoryAddr.isSome = true)
    (hok : NewL2OutputSubmitter cfg env = .ok s)
    (hwait : waitForL1Head tx.heads doneAt (output.Status.HeadL1.Number + 1) fuel =
      some (.success k)) :
    s.dgfContract = none ∧ s.l2ooContract = some env.l2ooHandle ∧ s.Cfg = cfg ∧
    sendTransaction s tx doneAt fuel output = some .nilDGFPanic := by
  have hs : s = { Cfg := cfg, l2ooContract := some env.l2ooHandle, dgfContract := none } := by
    rw [NewL2OutputSubmitter, if_pos h1] at hok
    unfold newL2OOSubmitter at hok
    split at hok
    · simp at hok
    · split at hok
      · simp at hok
      · split at hok
        · simp at hok
        · simp only [Except.ok.injEq] at hok
          exact hok.symm
  subst hs
  refine ⟨rfl, rfl, rfl, ?_⟩
  unfold sendTransaction
  rw [hwait]
  simp [h2]

/-- Witness for C3: the concrete both-addresses configuration with an
all-succeeding construction oracle yields `bothState`, and its dispatch
hits the nil factory handle. -/
theorem NewL2OutputSubmitter_bothAddrs_dgf_nil_witness :
    bothState.dgfContract = none ∧
    bothState.l2ooContract = some { nextBlockNumber := some 100 } ∧
    bothState.Cfg = bothCfg ∧
    sendTransaction bothState revertedTx (fun _ => false) 3 headZeroOutput =
      some .nilDGFPanic :=
  NewL2OutputSubmitter_bothAddrs_dgf_nil bothCfg okConstructEnv bothState revertedTx
    (fun _ => false) 3 0 headZeroOutput rfl rfl rfl rfl

/-- The retry loop of a `loopDGF` tick proposes the first fetched output
after exactly one sleep per preceding failure. -/
theorem loopDGFTickAux_proposes (fetch : Nat → Except Err OutputResponse)
    (doneAt : Nat → Bool) :
    ∀ (N i s fuel : Nat) (out : OutputResponse),
      (∀ j, j < N → ∃ e, fetch (i + j) = .error e) →
      fetch (i + N) = .ok out →
      (∀ j, j ≤ N → doneAt (i + j) = false) →
      N < fuel →
      loopDGFTickAux fetch doneAt i s fuel = some (.proposed out (s + N)) := by
  intro N
  induction N with
  | zero =>
    intro i s fuel out hfail hsucc hdone hfuel
    cases fuel with
    | zero => cases hfuel
    | succ n =>
      have hd : doneAt i = false := hdone 0 (Nat.le_refl 0)
      have hs : fetch i = .ok out := hsucc
      unfold loopDGFTickAux
      simp [hd, hs]
  | succ m ih =>
    intro i s fuel out hfail hsucc hdone hfuel
    cases fuel with
    | zero => cases hfuel
    | succ n =>
      have hd : doneAt i = false := hdone 0 (Nat.zero_le _)
      obtain ⟨e, he⟩ := hfail 0 (Nat.succ_pos m)
      have he' : fetch i = .error e := he
      have hrec := ih (i + 1) (s + 1) n out
        (fun j hj => by
          have hidx : i + 1 + j = i + (j + 1) := by omega
          rw [hidx]
          exact hfail (j + 1) (by omega))
        (by
          have hidx : i + 1 + m = i + (m + 1) := by omega
          rw [hidx]
          exact hsucc)
        (fun j hj => by
          have hidx : i + 1 + j = i + (j + 1) := by omega
          rw [hidx]
          exact hdone (j + 1) (by omega))
        (by omega)
      unfold loopDGFTickAux
      simp only [hd, Bool.false_eq_true, if_false, he']
      have hcnt : s + 1 + m = s + (m + 1) := by omega
      rw [hcnt] at hrec
      exact hrec

/-- The retry loop of a `loopDGF` tick only ever exits by observing the
shutdown signal or by a successful fetch. -/
theorem loopDGFTickAux_sound (fetch : Nat → Except Err OutputResponse)
    (doneAt : Nat → Bool) :
    ∀ (fuel i s : Nat) (o : TickOutcome),
      loopDGFTickAux fetch doneAt i s fuel = some o →
      o = .shutdown ∨
        ∃ output idx sl, o = .proposed output sl ∧ fetch idx = .ok output := by
  intro fuel
  induction fuel with
  | zero => intro i s o h; cases h
  | succ n ih =>
    intro i s o h
    unfold loopDGFTickAux at h
    split at h
    · simp only [Option.some.injEq] at h
      exact Or.inl h.symm
    · split at h
      · exact ih _ _ _ h
      · rename_i output hf
        simp only [Option.some.injEq] at h
        exact Or.inr ⟨output, i, s, h.symm, hf⟩

/-- The retry loop observes the shutdown signal on every iteration: as soon
as `done` is seen closed (after any run of failed fetches), the tick exits
with the shutdown outcome. -/
theorem loopDGFTickAux_shutdown (fetch : Nat → Except Err OutputResponse)
    (doneAt : Nat → Bool) :
    ∀ (k i s fuel : Nat),
      (∀ j, j < k → (∃ e, fetch (i + j) = .error e) ∧ doneAt (i + j) = false) →
      doneAt (i + k) = true → k < fuel →
      loopDGFTickAux fetch doneAt i s fuel = some .shutdown := by
  intro k
  induction k with
  | zero =>
    intro i s fuel hpre hd hfuel
    cases fuel with
    | zero => cases hfuel
    | succ n =>
      have hd' : doneAt i = true := hd
      unfold loopDGFTickAux
      simp [hd']
  | succ m ih =>
    intro i s fuel hpre hd hfuel
    cases fuel with
    | zero => cases hfuel
    | succ n =>
      obtain ⟨⟨e, he⟩, hdi⟩ := hpre 0 (Nat.succ_pos m)
      have he' : fetch i = .error e := he
      have hdi' : doneAt i = false := hdi
      unfold loopDGFTickAux
      simp only [hdi', Bool.false_eq_true, if_false, he']
      exact ih (i + 1) (s + 1) n
        (fun j hj => by
          have hidx : i + 1 + j = i + (j + 1) := by omega
          rw [hidx]
          exact hpre (j + 1) (by omega))
        (by
          have hidx : i + 1 + m = i + (m + 1) := by omega
          rw [hidx]
          exact hd)
        (by omega)

/-- C7: in factory mode, within one tick, if the output fetch fails `N`
times before succeeding (and no shutdown is observed), the retry loop
sleeps exactly `N` times and then proposes the first fetched output; every
exit of the loop is either a fetch success or an observed shutdown (it
never gives up on its own); and the shutdown signal is re-checked before
every attempt, exiting the tick as soon as it is seen. -/
theorem loopDGF_retry_spec (fetch : Nat → Except Err OutputResponse)
    (doneAt : Nat → Bool) (N fuel : Nat) (out : OutputResponse)
    (hfail : ∀ i, i < N → ∃ e, fetch i = .error e)
    (hsucc : fetch N = .ok out)
    (hdone : ∀ i, doneAt i = false)
    (hfuel : N < fuel) :
    loopDGFTick fetch doneAt fuel = some (.proposed out N) ∧
    (∀ fuel' o, loopDGFTick fetch doneAt fuel' = some o →
      o = .shutdown ∨
        ∃ output idx sl, o = .proposed output sl ∧ fetch idx = .ok output) ∧
    (∀ (doneAlt : Nat → Bool) (k fuel' : Nat),
      (∀ j, j < k → (∃ e, fetch j = .error e) ∧ doneAlt j = false) →
      doneAlt k = true → k < fuel' →
      loopDGFTick fetch doneAlt fuel' = some .shutdown) := by
  refine ⟨?_, ?_, ?_⟩
  · have h := loopDGFTickAux_proposes fetch doneAt N 0 0 fuel out
      (fun j hj => by simpa using hfail j hj) (by simpa using hsucc)
      (fun j _ => by rw [Nat.zero_add]; exact hdone j) hfuel
    simpa [loopDGFTick] using h
  · intro fuel' o h
    exact loopDGFTickAux_sound fetch doneAt fuel' 0 0 o h
  · intro doneAlt k fuel' hpre hd hf
    exact loopDGFTickAux_shutdown fetch doneAlt k 0 0 fuel'
      (fun j hj => by simpa using hpre j hj) (by simpa using hd) hf

/-- Witness for C7: two failed fetch attempts, then success — two sleeps
and the third attempt's output is proposed. -/
theorem loopDGF_retry_spec_witness :
    loopDGFTick fetchTwoFails (fun _ => false) 3 = some (.proposed sampleOutput 2) :=
  (loopDGF_retry_spec fetchTwoFails (fun _ => false) 2 3 sampleOutput
    (fun i hi => ⟨.rollupClient, by simp [fetchTwoFails, hi]⟩)
    (by simp [fetchTwoFails]) (fun _ => rfl) (by omega)).1

/-- C10: the proposed-blocks metric is recorded exactly when
`sendTransaction` returns without error — in particular it is recorded
when the confirmed receipt is reverted (`published true`), and it is not
recorded on any failing outcome (head-wait RPC error or shutdown, nil
factory handle, bond read failure, send failure) nor while the head wait
is still blocking. -/
theorem proposeOutput_metric (l : SubmitterState) (tx : TxmgrEnv)
    (doneAt : Nat → Bool) (fuel : Nat) (output : OutputResponse) :
    (proposeOutput l tx doneAt fuel output = true ↔
      ∃ r, sendTransaction l tx doneAt fuel output = some (.published r)) ∧
    (sendTransaction l tx doneAt fuel output = some (.published true) →
      proposeOutput l tx doneAt fuel output = true) ∧
    (∀ o, sendTransaction l tx doneAt fuel output = some o →
      (∀ r, o ≠ .published r) →
      proposeOutput l tx doneAt fuel output = false) ∧
    (sendTransaction l tx doneAt fuel output = none →
      proposeOutput l tx doneAt fuel output = false) := by
  unfold proposeOutput
  cases hs : sendTransaction l tx doneAt fuel output with
  | none => simp [metricRecorded]
  | some o =>
    cases o with
    | published r =>
      refine ⟨?_, ?_, ?_, ?_⟩
      · simp [metricRecorded]
      · intro _; simp [metricRecorded]
      · intro o' ho' hne
        simp only [Option.some.injEq] at ho'
        exact absurd rfl (ho' ▸ hne r)
      · intro h; cases h
    | waitRpcError => simp [metricRecorded]
    | waitShutdown => simp [metricRecorded]
    | nilDGFPanic => simp [metricRecorded]
    | bondError => simp [metricRecorded]
    | sendError => simp [metricRecorded]

/-- Witness for C10: a published-but-reverted receipt still records the
metric. -/
theorem proposeOutput_metric_witness :
    proposeOutput sampleState revertedTx (fun _ => false) 1 headZeroOutput = true :=
  (proposeOutput_metric sampleState revertedTx (fun _ => false) 1
    headZeroOutput).2.1 rfl

end Proposer
